import Mathlib

/-!
# A shallow embedding of the `agentcrew` database layer

This file models `src/database/mod.rs` of the `agentcrew` repository:
its SQLite schema (the static `MIGRATIONS` registry), the migration
engine (`Database::new` / `migrate` / `get_schema_version`), the
retention cleanup (`cleanup_old_sessions`), the statistics query
(`get_stats`), and the insert behaviour implied by the schema's
`CHECK` and `FOREIGN KEY ... ON DELETE CASCADE` constraints
(sqlx's SQLite driver enables foreign-key enforcement by default).

Timestamps (`DATETIME`) are modelled as integers (seconds), so
`Duration::days(d)` is `d * 86400`.  Enumerated text columns are
modelled as `String`, checked exactly as the schema's `CHECK`
clauses check them.  The store is the five tables; a table that has
not yet been created is represented by the `*TablesExist` flags
(rows of a non-existent table are conceptually absent).
-/

namespace AgentCrew

/-- A row of the `sessions` table (schema of migration 1). -/
structure SessionRow where
  id : String
  name : Option String
  prompt : String
  status : String
  agents_requested : String
  started_at : Int
  completed_at : Option Int
  created_by : Option String
  deriving Repr, DecidableEq

/-- A row of the `agents` table (schema of migration 1). -/
structure AgentRow where
  id : String
  session_id : String
  agent_type : String
  instance_number : Int
  worktree_path : Option String
  status : String
  progress : Option Int
  started_at : Int
  last_activity : Int
  process_id : Option Int
  deriving Repr, DecidableEq

/-- A row of the `interactions` table (schema of migration 1). -/
structure InteractionRow where
  id : Int
  agent_id : String
  session_id : String
  type : String
  content : String
  metadata : Option String
  requires_response : Bool
  responded_at : Option Int
  timestamp : Int
  deriving Repr, DecidableEq

/-- A row of the `file_changes` table (schema of migration 1). -/
structure FileChangeRow where
  id : Int
  agent_id : String
  session_id : String
  file_path : String
  change_type : String
  lines_added : Int
  lines_removed : Int
  commit_hash : Option String
  timestamp : Int
  deriving Repr, DecidableEq

/-- The on-disk store: the five tables of the schema.  The two flags
record whether the `schema_version` table, respectively the four
entity tables, have been created (before migration 1 runs none of
them exists). -/
structure Store where
  schemaVersionTableExists : Bool
  entityTablesExist : Bool
  schemaVersions : List Int
  sessions : List SessionRow
  agents : List AgentRow
  interactions : List InteractionRow
  fileChanges : List FileChangeRow
  deriving Repr, DecidableEq

/-- A freshly created database file: no tables at all. -/
def emptyStore : Store :=
  { schemaVersionTableExists := false
    entityTablesExist := false
    schemaVersions := []
    sessions := []
    agents := []
    interactions := []
    fileChanges := [] }

/-! ## The migration registry (`const MIGRATIONS`, `const SCHEMA_VERSION`) -/

/-- `const SCHEMA_VERSION: i32 = 1;` -/
def SCHEMA_VERSION : Int := 1

/-- `struct Migration` from the source: version, description, sql. -/
structure Migration where
  version : Int
  description : String
  sql : String
  deriving Repr, DecidableEq

/-- The schema-change script of migration 1 (its DDL statements;
inline SQL comments elided). -/
def migration1Sql : String :=
  "CREATE TABLE IF NOT EXISTS schema_version (version INTEGER PRIMARY KEY, applied_at DATETIME NOT NULL DEFAULT CURRENT_TIMESTAMP);
CREATE TABLE sessions (id TEXT PRIMARY KEY, name TEXT, prompt TEXT NOT NULL, status TEXT NOT NULL CHECK (status IN ('active', 'completed', 'failed', 'paused')), agents_requested TEXT NOT NULL, started_at DATETIME NOT NULL DEFAULT CURRENT_TIMESTAMP, completed_at DATETIME, created_by TEXT DEFAULT 'user');
CREATE TABLE agents (id TEXT PRIMARY KEY, session_id TEXT NOT NULL, agent_type TEXT NOT NULL CHECK (agent_type IN ('claude', 'gpt', 'jules')), instance_number INTEGER NOT NULL, worktree_path TEXT, status TEXT NOT NULL CHECK (status IN ('initializing', 'running', 'waiting', 'completed', 'failed', 'paused')), progress INTEGER DEFAULT 0 CHECK (progress >= 0 AND progress <= 100), started_at DATETIME NOT NULL DEFAULT CURRENT_TIMESTAMP, last_activity DATETIME NOT NULL DEFAULT CURRENT_TIMESTAMP, process_id INTEGER, FOREIGN KEY(session_id) REFERENCES sessions(id) ON DELETE CASCADE);
CREATE TABLE interactions (id INTEGER PRIMARY KEY AUTOINCREMENT, agent_id TEXT NOT NULL, session_id TEXT NOT NULL, type TEXT NOT NULL CHECK (type IN ('question', 'response', 'status', 'log', 'error', 'checkpoint')), content TEXT NOT NULL, metadata TEXT, requires_response BOOLEAN DEFAULT FALSE, responded_at DATETIME, timestamp DATETIME NOT NULL DEFAULT CURRENT_TIMESTAMP, FOREIGN KEY(agent_id) REFERENCES agents(id) ON DELETE CASCADE, FOREIGN KEY(session_id) REFERENCES sessions(id) ON DELETE CASCADE);
CREATE TABLE file_changes (id INTEGER PRIMARY KEY AUTOINCREMENT, agent_id TEXT NOT NULL, session_id TEXT NOT NULL, file_path TEXT NOT NULL, change_type TEXT NOT NULL CHECK (change_type IN ('created', 'modified', 'deleted', 'renamed')), lines_added INTEGER DEFAULT 0, lines_removed INTEGER DEFAULT 0, commit_hash TEXT, timestamp DATETIME NOT NULL DEFAULT CURRENT_TIMESTAMP, FOREIGN KEY(agent_id) REFERENCES agents(id) ON DELETE CASCADE, FOREIGN KEY(session_id) REFERENCES sessions(id) ON DELETE CASCADE);
CREATE INDEX idx_agents_session_id ON agents(session_id);"

/-- `const MIGRATIONS: &[Migration]` — the static registry. -/
def MIGRATIONS : List Migration :=
  [ { version := 1
      description := "Initial schema with sessions, agents, interactions, and file_changes"
      sql := migration1Sql } ]

/-- The highest version number appearing in a registry (0 for an
empty registry; all registered versions are positive). -/
def registryMaxVersion (registry : List Migration) : Int :=
  registry.foldl (fun acc m => max acc m.version) 0

/-! ## `get_schema_version` -/

/-- `SELECT MAX(version) FROM schema_version`: `none` on an empty
table, otherwise the maximum. -/
def listMaxInt : List Int → Option Int
  | [] => none
  | v :: vs => some ((listMaxInt vs).elim v (max v))

/-- `Database::get_schema_version`: 0 if the `schema_version` table
does not exist, else `MAX(version)` with `unwrap_or(0)`. -/
def getSchemaVersion (s : Store) : Int :=
  if !s.schemaVersionTableExists then 0
  else (listMaxInt s.schemaVersions).getD 0

/-! ## The migration engine (`migrate`, `Database::new`)

The engine executes each migration's SQL through the storage
engine; we parameterise it by an executor
`exec : String → Store → Except String Store` (the concrete
executor for the registered script is `execSqlRef` below), so the
engine's control flow — one transaction per migration, abort on
first failure — is stated once for every script semantics,
including failing ones. -/

/-- `INSERT OR REPLACE INTO schema_version (version) VALUES (?)`:
fails if the table does not exist; otherwise replaces any row with
the same primary key `version` and appends the new row. -/
def insertOrReplaceSchemaVersion (s : Store) (v : Int) : Except String Store :=
  if !s.schemaVersionTableExists then .error "no such table: schema_version"
  else .ok { s with schemaVersions := s.schemaVersions.filter (fun w => w ≠ v) ++ [v] }

/-- One iteration of the migration loop body: inside a single
transaction, execute the migration's SQL, then write its version
into `schema_version`, then commit.  An error from either statement
aborts the transaction: the caller keeps the pre-transaction store
(rollback), which is why this function only returns the new store
on success. -/
def migrateStep (exec : String → Store → Except String Store)
    (s : Store) (m : Migration) : Except String Store :=
  match exec m.sql s with
  | .error e => .error e
  | .ok s1 => insertOrReplaceSchemaVersion s1 m.version

/-- Result of running the migration loop: the persisted store, the
versions committed by this run (in order), and the error that
aborted the run, if any. -/
structure MigrateResult where
  store : Store
  applied : List Int
  error : Option String
  deriving Repr, DecidableEq

/-- The `for migration in MIGRATIONS` loop of `migrate`: skip
migrations whose version is not greater than the current version;
otherwise run `migrateStep`; on failure stop at once, keeping the
store as of the last committed transaction. -/
def migrateLoop (exec : String → Store → Except String Store)
    (cur : Int) : List Migration → Store → MigrateResult
  | [], s => ⟨s, [], none⟩
  | m :: ms, s =>
    if m.version > cur then
      match migrateStep exec s m with
      | .error e => ⟨s, [], some e⟩
      | .ok s' =>
        let r := migrateLoop exec cur ms s'
        ⟨r.store, m.version :: r.applied, r.error⟩
    else migrateLoop exec cur ms s

/-- `Database::migrate`: read the current version; return at once
(no writes) when it is already `>= SCHEMA_VERSION`; otherwise run
the loop over `MIGRATIONS`. -/
def migrate (exec : String → Store → Except String Store) (s : Store) : MigrateResult :=
  let cur := getSchemaVersion s
  if cur ≥ SCHEMA_VERSION then ⟨s, [], none⟩
  else migrateLoop exec cur MIGRATIONS s

/-- `Database::new`: connect (creating the file if absent — the
caller passes `emptyStore` for a fresh path) and run `migrate`; a
migration error is returned to the caller and the handle is not
usable. -/
def databaseNew (exec : String → Store → Except String Store)
    (s : Store) : Store × Except String Unit :=
  let r := migrate exec s
  match r.error with
  | some e => (r.store, .error e)
  | none => (r.store, .ok ())

/-- The reference executor for the one registered script: migration
1 creates `schema_version` if absent (a fresh, empty table when it
did not exist) and creates the four entity tables, which fails if
they already exist (`CREATE TABLE` without `IF NOT EXISTS`). -/
def execSqlRef (sql : String) (s : Store) : Except String Store :=
  if sql = migration1Sql then
    if s.entityTablesExist then .error "table sessions already exists"
    else
      .ok { schemaVersionTableExists := true
            entityTablesExist := true
            schemaVersions := if s.schemaVersionTableExists then s.schemaVersions else []
            sessions := []
            agents := []
            interactions := []
            fileChanges := [] }
  else .error ("unknown sql: " ++ sql)

/-! ## Retention cleanup (`cleanup_old_sessions`)

`Duration::days(days_to_keep)` in seconds. -/

def secondsPerDay : Int := 86400

/-- The WHERE clause of the first DELETE:
`status IN ('completed', 'failed') AND started_at < cutoff`. -/
def isExpiredSession (cutoff : Int) (r : SessionRow) : Bool :=
  (r.status == "completed" || r.status == "failed") && decide (r.started_at < cutoff)

/-- First pass: `DELETE FROM sessions WHERE status IN ('completed',
'failed') AND started_at < ?`, with `ON DELETE CASCADE` removing the
agents of a deleted session and the interactions and file changes
referencing a deleted session or a deleted agent.  Returns the new
store and `rows_affected()` (the session rows deleted; cascaded rows
are not counted by SQLite). -/
def deleteSessionsPass (cutoff : Int) (s : Store) : Store × Nat :=
  let doomedIds := (s.sessions.filter (isExpiredSession cutoff)).map (fun r => r.id)
  let doomedAgentIds :=
    (s.agents.filter (fun a => doomedIds.contains a.session_id)).map (fun a => a.id)
  ({ s with
      sessions := s.sessions.filter (fun r => !(isExpiredSession cutoff r))
      agents := s.agents.filter (fun a => !(doomedIds.contains a.session_id))
      interactions := s.interactions.filter (fun i =>
        !(doomedIds.contains i.session_id) && !(doomedAgentIds.contains i.agent_id))
      fileChanges := s.fileChanges.filter (fun f =>
        !(doomedIds.contains f.session_id) && !(doomedAgentIds.contains f.agent_id)) },
    ((s.sessions.filter (isExpiredSession cutoff)).length))

/-- The WHERE clause of the second DELETE, evaluated against the
store as it stands after the first pass:
`timestamp < ? AND session_id NOT IN (SELECT id FROM sessions)`. -/
def isOrphanInteraction (cutoff : Int) (s : Store) (i : InteractionRow) : Bool :=
  decide (i.timestamp < cutoff) && !(s.sessions.any (fun r => r.id == i.session_id))

/-- Second pass: delete orphaned interactions older than the cutoff. -/
def deleteOrphansPass (cutoff : Int) (s : Store) : Store × Nat :=
  ({ s with interactions := s.interactions.filter (fun i => !(isOrphanInteraction cutoff s i)) },
    (s.interactions.filter (isOrphanInteraction cutoff s)).length)

/-- What a run of `cleanup_old_sessions` leaves behind: the
persisted store, the lines printed with `println!`, and the `Result`
value returned to the caller (`Ok(())` on success — the Rust
function's success type is the unit type, it carries no counts). -/
structure CleanupOutcome where
  store : Store
  printed : List String
  result : Except String Unit
  deriving Repr

/-- `Database::cleanup_old_sessions(days_to_keep)`.  `now` is the
clock reading (`Utc::now()`).  `fault1`/`fault2` inject a storage
failure into the first/second DELETE statement; the code runs both
statements inside one transaction (`begin` … `commit`), so any
failure before the commit drops the transaction and the persistent
store is unchanged. -/
def cleanupOldSessions (fault1 fault2 : Bool) (now : Int)
    (s : Store) (daysToKeep : Int) : CleanupOutcome :=
  let cutoff := now - daysToKeep * secondsPerDay
  let header := "Cleaning up sessions older than " ++ toString daysToKeep ++ " days"
  if fault1 then
    { store := s, printed := [header], result := .error "cleanup: first DELETE failed" }
  else
    let (s1, deletedSessions) := deleteSessionsPass cutoff s
    if fault2 then
      { store := s, printed := [header], result := .error "cleanup: second DELETE failed" }
    else
      let (s2, deletedInteractions) := deleteOrphansPass cutoff s1
      let tail :=
        if deletedSessions > 0 || deletedInteractions > 0 then
          "Cleaned up " ++ toString deletedSessions ++ " sessions and " ++
            toString deletedInteractions ++ " orphaned interactions"
        else "No old data to clean up"
      { store := s2, printed := [header, tail], result := .ok () }

/-! ## Statistics (`get_stats`) -/

/-- `struct DatabaseStats` (counts are `i64`, version is `i32`). -/
structure DatabaseStats where
  sessions_count : Int
  active_agents_count : Int
  pending_questions_count : Int
  total_interactions_count : Int
  schema_version : Int
  deriving Repr, DecidableEq

/-- `WHERE status IN ('initializing', 'running', 'waiting')`. -/
def isActiveAgent (a : AgentRow) : Bool :=
  a.status == "initializing" || a.status == "running" || a.status == "waiting"

/-- `WHERE type = 'question' AND requires_response = TRUE AND responded_at IS NULL`. -/
def isPendingQuestion (i : InteractionRow) : Bool :=
  i.type == "question" && i.requires_response && i.responded_at.isNone

/-- `Database::get_stats`. -/
def getStats (s : Store) : DatabaseStats :=
  { sessions_count := (s.sessions.length : Int)
    active_agents_count := ((s.agents.filter isActiveAgent).length : Int)
    pending_questions_count := ((s.interactions.filter isPendingQuestion).length : Int)
    total_interactions_count := (s.interactions.length : Int)
    schema_version := getSchemaVersion s }

/-! ## Insert behaviour implied by the schema

The repository exposes the raw pool for entity writes; what an
`INSERT` does is therefore fixed by the schema's constraints:
`CHECK` clauses on the enumerated and numeric columns, foreign keys
(enforced, with sqlx's default `foreign_keys = ON`), and primary
keys.  SQLite's `CHECK` passes when the checked expression is NULL,
so a NULL `progress` is accepted; a supplied out-of-range value is
not. -/

/-- The `CHECK` clauses of the `agents` table. -/
def agentChecksOk (a : AgentRow) : Bool :=
  (["claude", "gpt", "jules"].contains a.agent_type) &&
  (["initializing", "running", "waiting", "completed", "failed", "paused"].contains a.status) &&
  (match a.progress with
   | none => true
   | some p => decide (0 ≤ p) && decide (p ≤ 100))

/-- `INSERT INTO agents ...` under the schema: constraint checks,
foreign-key check against `sessions`, primary-key check; an error
leaves the table as it was (no partial write). -/
def insertAgent (s : Store) (a : AgentRow) : Except String Store :=
  if !s.entityTablesExist then .error "no such table: agents"
  else if !(agentChecksOk a) then .error "CHECK constraint failed: agents"
  else if !(s.sessions.any (fun r => r.id == a.session_id)) then
    .error "FOREIGN KEY constraint failed"
  else if s.agents.any (fun b => b.id == a.id) then
    .error "UNIQUE constraint failed: agents.id"
  else .ok { s with agents := s.agents ++ [a] }

/-- The `CHECK` clause of the `file_changes` table: only
`change_type` is constrained — the schema declares no check on
`lines_added` or `lines_removed`. -/
def fileChangeChecksOk (f : FileChangeRow) : Bool :=
  ["created", "modified", "deleted", "renamed"].contains f.change_type

/-- The next AUTOINCREMENT id for `file_changes`. -/
def nextFileChangeId (s : Store) : Int :=
  (s.fileChanges.foldl (fun acc f => max acc f.id) 0) + 1

/-- `INSERT INTO file_changes ...` under the schema (the supplied
row's `id` is replaced by the AUTOINCREMENT value). -/
def insertFileChange (s : Store) (f : FileChangeRow) : Except String Store :=
  if !s.entityTablesExist then .error "no such table: file_changes"
  else if !(fileChangeChecksOk f) then .error "CHECK constraint failed: file_changes"
  else if !(s.agents.any (fun a => a.id == f.agent_id)) then
    .error "FOREIGN KEY constraint failed"
  else if !(s.sessions.any (fun r => r.id == f.session_id)) then
    .error "FOREIGN KEY constraint failed"
  else .ok { s with fileChanges := s.fileChanges ++ [{ f with id := nextFileChangeId s }] }

/-! ## Concrete rows and stores used in the examples below -/

/-- The store produced by opening a fresh database file. -/
def freshMigratedStore : Store :=
  { schemaVersionTableExists := true
    entityTablesExist := true
    schemaVersions := [1]
    sessions := []
    agents := []
    interactions := []
    fileChanges := [] }

/-- A clock reading 40 days (in seconds) after the epoch. -/
def exNow : Int := 3456000

def exSessionOld : SessionRow :=
  { id := "s1", name := none, prompt := "do X", status := "completed",
    agents_requested := "", started_at := 0, completed_at := some 100,
    created_by := some "user" }

def exSessionActive : SessionRow :=
  { id := "s2", name := some "live", prompt := "do Y", status := "active",
    agents_requested := "", started_at := 0, completed_at := none,
    created_by := some "user" }

def exAgentOld : AgentRow :=
  { id := "a1", session_id := "s1", agent_type := "claude", instance_number := 1,
    worktree_path := none, status := "completed", progress := some 100,
    started_at := 0, last_activity := 0, process_id := none }

def exAgentActive : AgentRow :=
  { id := "a2", session_id := "s2", agent_type := "gpt", instance_number := 1,
    worktree_path := none, status := "running", progress := some 40,
    started_at := 0, last_activity := 0, process_id := none }

def exInteractionOld : InteractionRow :=
  { id := 1, agent_id := "a1", session_id := "s1", type := "log", content := "done",
    metadata := none, requires_response := false, responded_at := none, timestamp := 50 }

/-- An orphan row: references a session that no longer exists (a row
predating cascade enforcement). -/
def exInteractionOrphan : InteractionRow :=
  { id := 2, agent_id := "aGone", session_id := "sGone", type := "status", content := "zombie",
    metadata := none, requires_response := false, responded_at := none, timestamp := 60 }

def exFileChangeOld : FileChangeRow :=
  { id := 1, agent_id := "a1", session_id := "s1", file_path := "src/lib.rs",
    change_type := "modified", lines_added := 3, lines_removed := 1,
    commit_hash := none, timestamp := 70 }

/-- A populated store: one terminal session started 40 days before
`exNow` with its dependents, one active session with an agent, and
one historical orphan interaction. -/
def exStore : Store :=
  { schemaVersionTableExists := true, entityTablesExist := true, schemaVersions := [1],
    sessions := [exSessionOld, exSessionActive],
    agents := [exAgentOld, exAgentActive],
    interactions := [exInteractionOld, exInteractionOrphan],
    fileChanges := [exFileChangeOld] }

/-- A store whose persisted schema version (2) exceeds the highest
registered version (1) — e.g. written by a later release. -/
def storeAtVersionTwo : Store :=
  { schemaVersionTableExists := true, entityTablesExist := true, schemaVersions := [2],
    sessions := [], agents := [], interactions := [], fileChanges := [] }

/-- An agent row with `progress = 150`, outside `[0, 100]`. -/
def exAgentBadProgress : AgentRow :=
  { id := "a3", session_id := "s2", agent_type := "gpt", instance_number := 2,
    worktree_path := none, status := "running", progress := some 150,
    started_at := 0, last_activity := 0, process_id := none }

/-- A file-change row with a negative `lines_added`. -/
def exFileChangeNegative : FileChangeRow :=
  { id := 0, agent_id := "a2", session_id := "s2", file_path := "src/x.rs",
    change_type := "modified", lines_added := -1, lines_removed := 0,
    commit_hash := none, timestamp := 80 }

/-- An executor whose every script fails (a storage-layer fault). -/
def failingExec : String → Store → Except String Store :=
  fun _ _ => .error "disk I/O error"

/-! ## Helper lemmas -/

/-- Unfolding `execSqlRef` at the registered script without reducing
the script text character by character. -/
theorem execSqlRef_migration1 (s : Store) :
    execSqlRef migration1Sql s =
      if s.entityTablesExist then .error "table sessions already exists"
      else .ok { schemaVersionTableExists := true
                 entityTablesExist := true
                 schemaVersions := if s.schemaVersionTableExists then s.schemaVersions else []
                 sessions := []
                 agents := []
                 interactions := []
                 fileChanges := [] } := by
  unfold execSqlRef
  rw [if_pos rfl]

theorem databaseNew_execSqlRef_emptyStore :
    databaseNew execSqlRef emptyStore = (freshMigratedStore, Except.ok ()) := by
  have h1 : migrate execSqlRef emptyStore = ⟨freshMigratedStore, [1], none⟩ := by
    simp [migrate, getSchemaVersion, emptyStore, SCHEMA_VERSION, MIGRATIONS, migrateLoop,
      migrateStep, execSqlRef_migration1, insertOrReplaceSchemaVersion, freshMigratedStore]
  simp [databaseNew, h1]

theorem isExpiredSession_eq_true_iff (cutoff : Int) (r : SessionRow) :
    isExpiredSession cutoff r = true ↔
      (r.status = "completed" ∨ r.status = "failed") ∧ r.started_at < cutoff := by
  simp [isExpiredSession, Bool.and_eq_true, Bool.or_eq_true]

/-- After the first DELETE, no expired session row remains. -/
theorem no_expired_in_deleteSessionsPass (cutoff : Int) (s : Store) :
    ∀ r ∈ (deleteSessionsPass cutoff s).1.sessions, isExpiredSession cutoff r = false := by
  intro r hr
  simp only [deleteSessionsPass, List.mem_filter, Bool.not_eq_true'] at hr
  exact hr.2

/-- Cascade: no dependent row of a deleted session survives the
first DELETE. -/
theorem deleteSessionsPass_dependents_gone (cutoff : Int) (s : Store) (r : SessionRow)
    (hr : r ∈ s.sessions) (he : isExpiredSession cutoff r = true) :
    (∀ a ∈ (deleteSessionsPass cutoff s).1.agents, a.session_id ≠ r.id) ∧
    (∀ i ∈ (deleteSessionsPass cutoff s).1.interactions, i.session_id ≠ r.id) ∧
    (∀ f ∈ (deleteSessionsPass cutoff s).1.fileChanges, f.session_id ≠ r.id) := by
  have hid : r.id ∈ (s.sessions.filter (isExpiredSession cutoff)).map (fun r => r.id) :=
    List.mem_map_of_mem _ (List.mem_filter.2 ⟨hr, he⟩)
  refine ⟨?_, ?_, ?_⟩ <;> intro x hx heq
  · simp only [deleteSessionsPass, List.mem_filter, Bool.not_eq_true'] at hx
    have := hx.2
    rw [heq] at this
    simp only [List.contains_eq_any_beq] at this
    simp only [List.any_eq_false] at this
    exact this r.id hid (by simp)
  · simp only [deleteSessionsPass, List.mem_filter, Bool.and_eq_true, Bool.not_eq_true'] at hx
    have := hx.2.1
    rw [heq] at this
    simp only [List.contains_eq_any_beq, List.any_eq_false] at this
    exact this r.id hid (by simp)
  · simp only [deleteSessionsPass, List.mem_filter, Bool.and_eq_true, Bool.not_eq_true'] at hx
    have := hx.2.1
    rw [heq] at this
    simp only [List.contains_eq_any_beq, List.any_eq_false] at this
    exact this r.id hid (by simp)

theorem deleteOrphansPass_sessions (cutoff : Int) (s : Store) :
    (deleteOrphansPass cutoff s).1.sessions = s.sessions := rfl

theorem deleteOrphansPass_agents (cutoff : Int) (s : Store) :
    (deleteOrphansPass cutoff s).1.agents = s.agents := rfl

theorem deleteOrphansPass_fileChanges (cutoff : Int) (s : Store) :
    (deleteOrphansPass cutoff s).1.fileChanges = s.fileChanges := rfl

theorem mem_deleteOrphansPass_interactions (cutoff : Int) (s : Store) (i : InteractionRow) :
    i ∈ (deleteOrphansPass cutoff s).1.interactions ↔
      i ∈ s.interactions ∧ isOrphanInteraction cutoff s i = false := by
  simp [deleteOrphansPass, List.mem_filter]

/-- The persistent store after a fault-free cleanup run is the
second pass applied to the result of the first. -/
theorem cleanupOldSessions_ok_store (now d : Int) (s : Store) :
    (cleanupOldSessions false false now s d).store =
      (deleteOrphansPass (now - d * secondsPerDay)
        (deleteSessionsPass (now - d * secondsPerDay) s).1).1 := rfl

theorem cleanupOldSessions_ok_result (now d : Int) (s : Store) :
    (cleanupOldSessions false false now s d).result = Except.ok () := rfl

theorem isOrphanInteraction_eq_false_iff (cutoff : Int) (s : Store) (i : InteractionRow) :
    isOrphanInteraction cutoff s i = false ↔
      (i.timestamp < cutoff → ∃ r ∈ s.sessions, r.id = i.session_id) := by
  simp only [isOrphanInteraction, Bool.and_eq_false_iff, decide_eq_false_iff_not,
    Bool.not_eq_false', List.any_eq_true, beq_iff_eq]
  constructor
  · rintro (h | h)
    · intro hc; exact absurd hc h
    · intro _; exact h
  · intro h
    by_cases hc : i.timestamp < cutoff
    · exact Or.inr (h hc)
    · exact Or.inl hc

/-! ## The claims -/

/-- C1: for every retention window `d`, after a fault-free
`cleanup(d)` run no session row with status `completed` or `failed`
and `started_at` older than `now − d` days remains, and no agent,
interaction, or file-change row belonging to such a deleted session
remains either (cascading deletion removes all dependents). -/
theorem cleanup_removes_expired_sessions_and_dependents (now d : Int) (s : Store) :
    (∀ r ∈ (cleanupOldSessions false false now s d).store.sessions,
        ¬((r.status = "completed" ∨ r.status = "failed") ∧
          r.started_at < now - d * secondsPerDay)) ∧
    (∀ r ∈ s.sessions,
        (r.status = "completed" ∨ r.status = "failed") →
        r.started_at < now - d * secondsPerDay →
        (∀ a ∈ (cleanupOldSessions false false now s d).store.agents, a.session_id ≠ r.id) ∧
        (∀ i ∈ (cleanupOldSessions false false now s d).store.interactions,
            i.session_id ≠ r.id) ∧
        (∀ f ∈ (cleanupOldSessions false false now s d).store.fileChanges,
            f.session_id ≠ r.id)) := by
  constructor
  · intro r hr hcontra
    rw [cleanupOldSessions_ok_store, deleteOrphansPass_sessions] at hr
    have hfalse := no_expired_in_deleteSessionsPass (now - d * secondsPerDay) s r hr
    have htrue := (isExpiredSession_eq_true_iff (now - d * secondsPerDay) r).2 hcontra
    simp [htrue] at hfalse
  · intro r hr hst hold
    have he : isExpiredSession (now - d * secondsPerDay) r = true :=
      (isExpiredSession_eq_true_iff (now - d * secondsPerDay) r).2 ⟨hst, hold⟩
    obtain ⟨ha, hi, hf⟩ :=
      deleteSessionsPass_dependents_gone (now - d * secondsPerDay) s r hr he
    refine ⟨?_, ?_, ?_⟩
    · intro a hax
      rw [cleanupOldSessions_ok_store, deleteOrphansPass_agents] at hax
      exact ha a hax
    · intro i hix
      rw [cleanupOldSessions_ok_store] at hix
      exact hi i ((mem_deleteOrphansPass_interactions _ _ i).1 hix).1
    · intro f hfx
      rw [cleanupOldSessions_ok_store, deleteOrphansPass_fileChanges] at hfx
      exact hf f hfx

/-- Witness for C1 at a concrete input: the populated `exStore`,
`now` 40 days after the session started, retention 30 days. -/
theorem cleanup_removes_expired_sessions_and_dependents_witness :
    (∀ r ∈ (cleanupOldSessions false false exNow exStore 30).store.sessions,
        ¬((r.status = "completed" ∨ r.status = "failed") ∧
          r.started_at < exNow - 30 * secondsPerDay)) ∧
    (∀ r ∈ exStore.sessions,
        (r.status = "completed" ∨ r.status = "failed") →
        r.started_at < exNow - 30 * secondsPerDay →
        (∀ a ∈ (cleanupOldSessions false false exNow exStore 30).store.agents,
            a.session_id ≠ r.id) ∧
        (∀ i ∈ (cleanupOldSessions false false exNow exStore 30).store.interactions,
            i.session_id ≠ r.id) ∧
        (∀ f ∈ (cleanupOldSessions false false exNow exStore 30).store.fileChanges,
            f.session_id ≠ r.id)) :=
  cleanup_removes_expired_sessions_and_dependents exNow 30 exStore

/-- C6: the two passes of cleanup run inside a single atomic
transaction: a storage fault in either DELETE statement leaves the
persistent store exactly as it was and surfaces an error, while a
fault-free run commits both passes together. -/
theorem cleanup_single_transaction_all_or_nothing
    (f1 f2 : Bool) (now d : Int) (s : Store) :
    (f1 = true ∨ f2 = true →
      (cleanupOldSessions f1 f2 now s d).store = s ∧
      ∃ e, (cleanupOldSessions f1 f2 now s d).result = Except.error e) ∧
    ((cleanupOldSessions false false now s d).result = Except.ok () ∧
      (cleanupOldSessions false false now s d).store =
        (deleteOrphansPass (now - d * secondsPerDay)
          (deleteSessionsPass (now - d * secondsPerDay) s).1).1) := by
  constructor
  · rintro (rfl | rfl)
    · exact ⟨rfl, "cleanup: first DELETE failed", rfl⟩
    · cases f1
      · exact ⟨rfl, "cleanup: second DELETE failed", rfl⟩
      · exact ⟨rfl, "cleanup: first DELETE failed", rfl⟩
  · exact ⟨rfl, rfl⟩

/-- Witness for C6: a fault injected into the second DELETE on the
populated store rolls back the session deletions of the first pass
as well — the store is unchanged. -/
theorem cleanup_single_transaction_all_or_nothing_witness :
    (cleanupOldSessions false true exNow exStore 30).store = exStore ∧
    ∃ e, (cleanupOldSessions false true exNow exStore 30).result = Except.error e :=
  (cleanup_single_transaction_all_or_nothing false true exNow 30 exStore).1 (Or.inr rfl)

/-- C10: a negative `days_to_keep` is accepted without error; the
cutoff `now − days_to_keep` then lies in the future, so every
terminal (completed/failed) session whose `started_at` is not in
the future is deleted together with all its dependents, and every
orphaned interaction older than that future cutoff is deleted. -/
theorem cleanup_negative_days_deletes_all_terminal_sessions
    (now d : Int) (s : Store) (hd : d < 0) :
    (cleanupOldSessions false false now s d).result = Except.ok () ∧
    now < now - d * secondsPerDay ∧
    (∀ r ∈ s.sessions, (r.status = "completed" ∨ r.status = "failed") →
        r.started_at ≤ now →
        r ∉ (cleanupOldSessions false false now s d).store.sessions ∧
        (∀ a ∈ (cleanupOldSessions false false now s d).store.agents,
            a.session_id ≠ r.id) ∧
        (∀ i ∈ (cleanupOldSessions false false now s d).store.interactions,
            i.session_id ≠ r.id) ∧
        (∀ f ∈ (cleanupOldSessions false false now s d).store.fileChanges,
            f.session_id ≠ r.id)) ∧
    (∀ i ∈ (cleanupOldSessions false false now s d).store.interactions,
        i.timestamp < now - d * secondsPerDay →
        ∃ r ∈ (cleanupOldSessions false false now s d).store.sessions,
          r.id = i.session_id) := by
  have hcut : now < now - d * secondsPerDay := by
    simp only [secondsPerDay]; omega
  refine ⟨cleanupOldSessions_ok_result now d s, hcut, ?_, ?_⟩
  · intro r hr hst hpast
    have he : isExpiredSession (now - d * secondsPerDay) r = true :=
      (isExpiredSession_eq_true_iff _ r).2 ⟨hst, lt_of_le_of_lt hpast hcut⟩
    obtain ⟨ha, hi, hf⟩ :=
      deleteSessionsPass_dependents_gone (now - d * secondsPerDay) s r hr he
    refine ⟨?_, ?_, ?_, ?_⟩
    · intro hmem
      rw [cleanupOldSessions_ok_store, deleteOrphansPass_sessions] at hmem
      have := no_expired_in_deleteSessionsPass (now - d * secondsPerDay) s r hmem
      simp [he] at this
    · intro a hax
      rw [cleanupOldSessions_ok_store, deleteOrphansPass_agents] at hax
      exact ha a hax
    · intro i hix
      rw [cleanupOldSessions_ok_store] at hix
      exact hi i ((mem_deleteOrphansPass_interactions _ _ i).1 hix).1
    · intro f hfx
      rw [cleanupOldSessions_ok_store, deleteOrphansPass_fileChanges] at hfx
      exact hf f hfx
  · intro i hix hts
    rw [cleanupOldSessions_ok_store] at hix
    have hmem := (mem_deleteOrphansPass_interactions _ _ i).1 hix
    have := (isOrphanInteraction_eq_false_iff _ _ i).1 hmem.2 hts
    rw [cleanupOldSessions_ok_store, deleteOrphansPass_sessions]
    exact this

/-- Witness for C10: `cleanup(-1)` on the populated store. -/
theorem cleanup_negative_days_deletes_all_terminal_sessions_witness :
    (cleanupOldSessions false false exNow exStore (-1)).result = Except.ok () ∧
    exNow < exNow - (-1) * secondsPerDay ∧
    (∀ r ∈ exStore.sessions, (r.status = "completed" ∨ r.status = "failed") →
        r.started_at ≤ exNow →
        r ∉ (cleanupOldSessions false false exNow exStore (-1)).store.sessions ∧
        (∀ a ∈ (cleanupOldSessions false false exNow exStore (-1)).store.agents,
            a.session_id ≠ r.id) ∧
        (∀ i ∈ (cleanupOldSessions false false exNow exStore (-1)).store.interactions,
            i.session_id ≠ r.id) ∧
        (∀ f ∈ (cleanupOldSessions false false exNow exStore (-1)).store.fileChanges,
            f.session_id ≠ r.id)) ∧
    (∀ i ∈ (cleanupOldSessions false false exNow exStore (-1)).store.interactions,
        i.timestamp < exNow - (-1) * secondsPerDay →
        ∃ r ∈ (cleanupOldSessions false false exNow exStore (-1)).store.sessions,
          r.id = i.session_id) :=
  cleanup_negative_days_deletes_all_terminal_sessions exNow (-1) exStore (by norm_num)

/-- Counterexample to C3 as stated: on a store where the run deletes
one session and one orphaned interaction, the value a successful
`cleanup_old_sessions` returns to the caller is `Ok(())` — the unit
value, identical to the return value of a run that deleted nothing —
so the two deletion counts are not returned to the caller (they are
only computed internally and printed). -/
theorem cleanup_returns_unit_not_counts_cx :
    (deleteSessionsPass (exNow - 30 * secondsPerDay) exStore).2 = 1 ∧
    (deleteOrphansPass (exNow - 30 * secondsPerDay)
       (deleteSessionsPass (exNow - 30 * secondsPerDay) exStore).1).2 = 1 ∧
    (cleanupOldSessions false false exNow exStore 30).result = Except.ok () ∧
    (deleteSessionsPass (exNow - 30 * secondsPerDay) emptyStore).2 = 0 ∧
    (cleanupOldSessions false false exNow emptyStore 30).result = Except.ok () := by
  refine ⟨by decide, by decide, rfl, by decide, rfl⟩

/-- C3 as amended: a successful `cleanup(retain_days)` computes both
deletion counts — sessions deleted and orphaned interactions
deleted — but reports them only through its printed output; the
value returned to the caller is unit.  Zero counts are a normal,
non-error outcome (the run returns `Ok(())` and prints the
"No old data" line). -/
theorem cleanup_reports_counts_in_output (now d : Int) (s : Store) :
    (cleanupOldSessions false false now s d).result = Except.ok () ∧
    (cleanupOldSessions false false now s d).printed =
      ["Cleaning up sessions older than " ++ toString d ++ " days",
       if (deleteSessionsPass (now - d * secondsPerDay) s).2 > 0 ||
          (deleteOrphansPass (now - d * secondsPerDay)
            (deleteSessionsPass (now - d * secondsPerDay) s).1).2 > 0 then
         "Cleaned up " ++ toString (deleteSessionsPass (now - d * secondsPerDay) s).2 ++
           " sessions and " ++
           toString (deleteOrphansPass (now - d * secondsPerDay)
             (deleteSessionsPass (now - d * secondsPerDay) s).1).2 ++
           " orphaned interactions"
       else "No old data to clean up"] :=
  ⟨rfl, rfl⟩

/-- C5: when the store's persisted schema version already equals the
highest registered version, running the migration engine again
performs zero writes: the store is returned unchanged and the list
of migrations applied by the run is empty, for every storage
executor. -/
theorem migrate_up_to_date_zero_writes
    (exec : String → Store → Except String Store) (s : Store)
    (h : getSchemaVersion s = registryMaxVersion MIGRATIONS) :
    migrate exec s = ⟨s, [], none⟩ := by
  have hmax : registryMaxVersion MIGRATIONS = SCHEMA_VERSION := by decide
  simp [migrate, h, hmax]

/-- Witness for C5: re-running the engine (with the reference
executor) on a freshly migrated store writes nothing. -/
theorem migrate_up_to_date_zero_writes_witness :
    migrate execSqlRef freshMigratedStore = ⟨freshMigratedStore, [], none⟩ :=
  migrate_up_to_date_zero_writes execSqlRef freshMigratedStore (by decide)

/-! ## Migration-engine lemmas -/

theorem migrateLoop_nil (exec : String → Store → Except String Store) (cur : Int)
    (s : Store) : migrateLoop exec cur [] s = ⟨s, [], none⟩ := rfl

theorem migrateLoop_cons_step_ok (exec : String → Store → Except String Store)
    (cur : Int) (m : Migration) (ms : List Migration) (s s' : Store)
    (hv : m.version > cur) (hstep : migrateStep exec s m = Except.ok s') :
    migrateLoop exec cur (m :: ms) s =
      ⟨(migrateLoop exec cur ms s').store,
       m.version :: (migrateLoop exec cur ms s').applied,
       (migrateLoop exec cur ms s').error⟩ := by
  simp only [migrateLoop]; rw [if_pos hv, hstep]

theorem migrateLoop_cons_step_error (exec : String → Store → Except String Store)
    (cur : Int) (m : Migration) (ms : List Migration) (s : Store) (e : String)
    (hv : m.version > cur) (hstep : migrateStep exec s m = Except.error e) :
    migrateLoop exec cur (m :: ms) s = ⟨s, [], some e⟩ := by
  simp only [migrateLoop]; rw [if_pos hv, hstep]

/-- Failure analysis of the migration loop: when a run fails, there
is a unique failing migration; every migration before it committed,
the failing migration's transaction left no trace (the final store
is exactly the store after the last successful commit), and no
migration after it was attempted (nothing further was applied). -/
theorem migrateLoop_error_spec (exec : String → Store → Except String Store) (cur : Int) :
    ∀ (registry : List Migration) (s : Store) (e : String),
      (migrateLoop exec cur registry s).error = some e →
      ∃ pre m post, registry = pre ++ m :: post ∧
        m.version > cur ∧
        (migrateLoop exec cur pre s).error = none ∧
        migrateStep exec (migrateLoop exec cur pre s).store m = Except.error e ∧
        (migrateLoop exec cur registry s).store = (migrateLoop exec cur pre s).store ∧
        (migrateLoop exec cur registry s).applied = (migrateLoop exec cur pre s).applied := by
  intro registry
  induction registry with
  | nil => intro s e h; simp [migrateLoop] at h
  | cons m ms ih =>
    intro s e h
    by_cases hv : m.version > cur
    · cases hstep : migrateStep exec s m with
      | error e2 =>
        have hwhole : migrateLoop exec cur (m :: ms) s = ⟨s, [], some e2⟩ := by
          simp only [migrateLoop]; rw [if_pos hv, hstep]
        rw [hwhole] at h
        simp only [Option.some.injEq] at h
        subst h
        refine ⟨[], m, ms, rfl, hv, by simp [migrateLoop], ?_, ?_, ?_⟩
        · simpa [migrateLoop] using hstep
        · rw [hwhole]; simp [migrateLoop]
        · rw [hwhole]; simp [migrateLoop]
      | ok s1 =>
        have hwhole : migrateLoop exec cur (m :: ms) s =
            ⟨(migrateLoop exec cur ms s1).store,
             m.version :: (migrateLoop exec cur ms s1).applied,
             (migrateLoop exec cur ms s1).error⟩ := by
          simp only [migrateLoop]; rw [if_pos hv, hstep]
        rw [hwhole] at h
        obtain ⟨pre, m2, post, hreg, hv2, hnone, hstep2, hstore, happl⟩ := ih s1 e h
        have hpre : migrateLoop exec cur (m :: pre) s =
            ⟨(migrateLoop exec cur pre s1).store,
             m.version :: (migrateLoop exec cur pre s1).applied,
             (migrateLoop exec cur pre s1).error⟩ := by
          simp only [migrateLoop]; rw [if_pos hv, hstep]
        refine ⟨m :: pre, m2, post, by rw [hreg, List.cons_append], hv2, ?_, ?_, ?_, ?_⟩
        · rw [hpre, hnone]
        · rw [hpre]; exact hstep2
        · rw [hwhole, hpre]; exact hstore
        · rw [hwhole, hpre]; simp only [MigrateResult.applied]; rw [happl]
    · have hskip : migrateLoop exec cur (m :: ms) s = migrateLoop exec cur ms s := by
        simp only [migrateLoop]; rw [if_neg hv]
      rw [hskip] at h
      obtain ⟨pre, m2, post, hreg, hv2, hnone, hstep2, hstore, happl⟩ := ih s e h
      have hpre : migrateLoop exec cur (m :: pre) s = migrateLoop exec cur pre s := by
        simp only [migrateLoop]; rw [if_neg hv]
      refine ⟨m :: pre, m2, post, by rw [hreg, List.cons_append], hv2, ?_, ?_, ?_, ?_⟩
      · rw [hpre]; exact hnone
      · rw [hpre]; exact hstep2
      · rw [hskip, hpre]; exact hstore
      · rw [hskip, hpre]; exact happl

theorem listMaxInt_eq_none_iff (l : List Int) : listMaxInt l = none ↔ l = [] := by
  cases l <;> simp [listMaxInt]

theorem le_listMaxInt_getD (l : List Int) : ∀ x ∈ l, x ≤ (listMaxInt l).getD 0 := by
  induction l with
  | nil => intro x hx; cases hx
  | cons a t ih =>
    intro x hx
    rcases List.mem_cons.1 hx with rfl | hxt
    · cases ht : listMaxInt t <;> simp [listMaxInt, ht]
    · cases ht : listMaxInt t with
      | none => rw [(listMaxInt_eq_none_iff t).1 ht] at hxt; cases hxt
      | some w =>
        have := ih x hxt
        rw [ht] at this
        simp only [Option.getD_some] at this
        simp only [listMaxInt, ht, Option.elim, Option.getD_some]
        exact le_trans this (le_max_right a w)

theorem listMaxInt_append_singleton (A : List Int) (v : Int) (h : ∀ a ∈ A, a ≤ v) :
    listMaxInt (A ++ [v]) = some v := by
  induction A with
  | nil => simp [listMaxInt]
  | cons a t ih =>
    have ht : listMaxInt (t ++ [v]) = some v :=
      ih (fun x hx => h x (List.mem_cons_of_mem a hx))
    rw [List.cons_append, listMaxInt, ht]
    show some (max a v) = some v
    rw [max_eq_right (h a (List.mem_cons_self a t))]

/-- C2: every applied migration runs its schema-change script and
its version write inside one transaction — they commit or roll back
together (first and second conjunct); when a migration's transaction
fails, no subsequent migration is attempted, the persisted store and
its version stay at the last successfully committed state, and the
error is surfaced to the caller of `Database::new` (first and third
conjunct). -/
theorem migration_transaction_atomic_abort_and_surface :
    (∀ (exec : String → Store → Except String Store) (registry : List Migration)
        (cur : Int) (s : Store) (e : String),
      (migrateLoop exec cur registry s).error = some e →
      ∃ pre m post, registry = pre ++ m :: post ∧
        m.version > cur ∧
        (migrateLoop exec cur pre s).error = none ∧
        migrateStep exec (migrateLoop exec cur pre s).store m = Except.error e ∧
        (migrateLoop exec cur registry s).store = (migrateLoop exec cur pre s).store ∧
        (migrateLoop exec cur registry s).applied = (migrateLoop exec cur pre s).applied) ∧
    (∀ (exec : String → Store → Except String Store) (s : Store) (m : Migration)
        (s' : Store),
      migrateStep exec s m = Except.ok s' →
      ∃ s1, exec m.sql s = Except.ok s1 ∧
        insertOrReplaceSchemaVersion s1 m.version = Except.ok s') ∧
    (∀ (exec : String → Store → Except String Store) (s : Store) (e : String),
      (migrate exec s).error = some e →
      databaseNew exec s = ((migrate exec s).store, Except.error e)) := by
  refine ⟨fun exec registry cur s e h => migrateLoop_error_spec exec cur registry s e h,
    ?_, ?_⟩
  · intro exec s m s' h
    unfold migrateStep at h
    cases hex : exec m.sql s with
    | error e2 => rw [hex] at h; simp at h
    | ok s1 => rw [hex] at h; exact ⟨s1, rfl, h⟩
  · intro exec s e h
    simp [databaseNew, h]

/-- Witness for C2: an executor whose scripts fail, applied to a
fresh store: the run aborts at migration 1 with nothing committed
and the error surfaced. -/
theorem migration_transaction_atomic_abort_and_surface_witness :
    ∃ pre m post, MIGRATIONS = pre ++ m :: post ∧
      m.version > 0 ∧
      (migrateLoop failingExec 0 pre emptyStore).error = none ∧
      migrateStep failingExec (migrateLoop failingExec 0 pre emptyStore).store m =
        Except.error "disk I/O error" ∧
      (migrateLoop failingExec 0 MIGRATIONS emptyStore).store =
        (migrateLoop failingExec 0 pre emptyStore).store ∧
      (migrateLoop failingExec 0 MIGRATIONS emptyStore).applied =
        (migrateLoop failingExec 0 pre emptyStore).applied :=
  migration_transaction_atomic_abort_and_surface.1 failingExec MIGRATIONS 0 emptyStore
    "disk I/O error" (by decide)

/-- Counterexample to C4 as stated: a store persisted at schema
version 2 (above the registry's highest version 1, e.g. written by a
later release) opens successfully, yet its persisted version stays 2
and does not equal the highest registered version — `migrate`
returns early whenever the current version is `>= SCHEMA_VERSION`. -/
theorem open_keeps_higher_persisted_version_cx :
    (databaseNew execSqlRef storeAtVersionTwo).2 = Except.ok () ∧
    getSchemaVersion (databaseNew execSqlRef storeAtVersionTwo).1 = 2 ∧
    registryMaxVersion MIGRATIONS = 1 :=
  ⟨rfl, rfl, by decide⟩

/-- C4 as amended: after a successful `open(path)`, provided the
store's persisted schema version did not already exceed the highest
registered version, the persisted schema version equals the highest
version in the static migration registry (which equals
`SCHEMA_VERSION`); migrations run to completion inside
`Database::new` before the handle is returned. -/
theorem open_reaches_registry_max_version (s : Store)
    (hle : getSchemaVersion s ≤ registryMaxVersion MIGRATIONS)
    (hok : (databaseNew execSqlRef s).2 = Except.ok ()) :
    getSchemaVersion (databaseNew execSqlRef s).1 = registryMaxVersion MIGRATIONS ∧
    registryMaxVersion MIGRATIONS = SCHEMA_VERSION := by
  have hmax : registryMaxVersion MIGRATIONS = SCHEMA_VERSION := by decide
  rw [hmax] at hle ⊢
  refine ⟨?_, rfl⟩
  by_cases hge : SCHEMA_VERSION ≤ getSchemaVersion s
  · have hcur : getSchemaVersion s = SCHEMA_VERSION := le_antisymm hle hge
    have hmig : migrate execSqlRef s = ⟨s, [], none⟩ := by
      simp [migrate, hge]
    simp [databaseNew, hmig, hcur]
  · push_neg at hge
    have hmig : migrate execSqlRef s =
        migrateLoop execSqlRef (getSchemaVersion s) MIGRATIONS s := by
      simp [migrate, not_le.2 hge]
    have h1 : (1 : Int) > getSchemaVersion s := by
      simpa [SCHEMA_VERSION] using hge
    have hreg : MIGRATIONS =
        [{ version := 1,
           description := "Initial schema with sessions, agents, interactions, and file_changes",
           sql := migration1Sql }] := rfl
    cases het : s.entityTablesExist with
    | true =>
      have hstep : migrateStep execSqlRef s
          { version := 1,
            description := "Initial schema with sessions, agents, interactions, and file_changes",
            sql := migration1Sql } = Except.error "table sessions already exists" := by
        simp [migrateStep, execSqlRef_migration1, het]
      have hmig2 : migrate execSqlRef s = ⟨s, [], some "table sessions already exists"⟩ := by
        rw [hmig, hreg, migrateLoop_cons_step_error _ _ _ _ _ _ h1 hstep]
      have hdb : databaseNew execSqlRef s =
          (s, Except.error "table sessions already exists") := by
        simp [databaseNew, hmig2]
      rw [hdb] at hok
      simp at hok
    | false =>
      have hstep : migrateStep execSqlRef s
          { version := 1,
            description := "Initial schema with sessions, agents, interactions, and file_changes",
            sql := migration1Sql } =
          Except.ok { schemaVersionTableExists := true
                      entityTablesExist := true
                      schemaVersions :=
                        (if s.schemaVersionTableExists then s.schemaVersions else []).filter
                          (fun w => w ≠ 1) ++ [1]
                      sessions := []
                      agents := []
                      interactions := []
                      fileChanges := [] } := by
        simp [migrateStep, execSqlRef_migration1, het, insertOrReplaceSchemaVersion]
      have hmig2 : migrate execSqlRef s =
          ⟨{ schemaVersionTableExists := true
             entityTablesExist := true
             schemaVersions :=
               (if s.schemaVersionTableExists then s.schemaVersions else []).filter
                 (fun w => w ≠ 1) ++ [1]
             sessions := []
             agents := []
             interactions := []
             fileChanges := [] }, [1], none⟩ := by
        rw [hmig, hreg, migrateLoop_cons_step_ok _ _ _ _ _ _ h1 hstep, migrateLoop_nil]
      have hdb : (databaseNew execSqlRef s).1 =
          { schemaVersionTableExists := true
            entityTablesExist := true
            schemaVersions :=
              (if s.schemaVersionTableExists then s.schemaVersions else []).filter
                (fun w => w ≠ 1) ++ [1]
            sessions := []
            agents := []
            interactions := []
            fileChanges := [] } := by
        simp [databaseNew, hmig2]
      rw [hdb]
      have hbound : ∀ a ∈ (if s.schemaVersionTableExists then s.schemaVersions else []).filter
          (fun w => w ≠ 1), a ≤ 1 := by
        intro a ha
        have ha2 := List.mem_of_mem_filter ha
        by_cases hsv : s.schemaVersionTableExists
        · rw [if_pos hsv] at ha2
          have hx := le_listMaxInt_getD s.schemaVersions a ha2
          have hcur : getSchemaVersion s = (listMaxInt s.schemaVersions).getD 0 := by
            simp [getSchemaVersion, hsv]
          rw [← hcur] at hx
          simp only [SCHEMA_VERSION] at hge
          omega
        · rw [if_neg hsv] at ha2; cases ha2
      rw [getSchemaVersion]
      simp only [Bool.not_true, if_false]
      rw [listMaxInt_append_singleton _ 1 hbound]
      simp [SCHEMA_VERSION]

/-- Witness for the amended C4: opening a fresh (empty) database
file succeeds and leaves the persisted version at the registry
maximum. -/
theorem open_reaches_registry_max_version_witness :
    getSchemaVersion (databaseNew execSqlRef emptyStore).1 = registryMaxVersion MIGRATIONS ∧
    registryMaxVersion MIGRATIONS = SCHEMA_VERSION :=
  open_reaches_registry_max_version emptyStore (by decide)
    (by rw [databaseNew_execSqlRef_emptyStore])

/-- C9: `stats()` counts active agents as exactly the agent rows
with status in \{initializing, running, waiting\} and pending
questions as exactly the interaction rows with type `question`,
`requires_response` true, and `responded_at` unset; on a freshly
opened empty store all four counts are zero and `schema_version`
equals the latest registered version. -/
theorem getStats_counts_and_fresh_store :
    (∀ s : Store,
      (getStats s).active_agents_count =
        ((s.agents.filter (fun a =>
          decide (a.status = "initializing" ∨ a.status = "running" ∨
            a.status = "waiting"))).length : Int) ∧
      (getStats s).pending_questions_count =
        ((s.interactions.filter (fun i =>
          decide (i.type = "question" ∧ i.requires_response = true ∧
            i.responded_at = none))).length : Int)) ∧
    ((databaseNew execSqlRef emptyStore).2 = Except.ok () ∧
      getStats (databaseNew execSqlRef emptyStore).1 =
        { sessions_count := 0, active_agents_count := 0, pending_questions_count := 0,
          total_interactions_count := 0,
          schema_version := registryMaxVersion MIGRATIONS }) := by
  constructor
  · intro s
    constructor
    · have hfe : ∀ a ∈ s.agents, isActiveAgent a =
          decide (a.status = "initializing" ∨ a.status = "running" ∨
            a.status = "waiting") := by
        intro a _
        by_cases h1 : a.status = "initializing" <;>
          by_cases h2 : a.status = "running" <;>
          by_cases h3 : a.status = "waiting" <;>
          simp [isActiveAgent, h1, h2, h3]
      simp only [getStats]
      rw [List.filter_congr hfe]
    · have hfe : ∀ i ∈ s.interactions, isPendingQuestion i =
          decide (i.type = "question" ∧ i.requires_response = true ∧
            i.responded_at = none) := by
        intro i _
        by_cases h1 : i.type = "question" <;>
          cases h2 : i.requires_response <;>
          cases h3 : i.responded_at <;>
          simp [isPendingQuestion, h1, h2, h3]
      simp only [getStats]
      rw [List.filter_congr hfe]
  · refine ⟨by rw [databaseNew_execSqlRef_emptyStore], ?_⟩
    rw [databaseNew_execSqlRef_emptyStore]
    decide

/-- C7: an agent insert is rejected with a constraint violation —
and performs no write — whenever its `session_id` references no
existing session, or its supplied `progress` lies outside `[0, 100]`,
or its `agent_type` or `status` is outside the declared enumerated
value set. -/
theorem insertAgent_constraint_violations_rejected (s : Store) (a : AgentRow)
    (h : (¬ ∃ r ∈ s.sessions, r.id = a.session_id) ∨
         (∃ p, a.progress = some p ∧ (p < 0 ∨ 100 < p)) ∨
         a.agent_type ∉ (["claude", "gpt", "jules"] : List String) ∨
         a.status ∉ (["initializing", "running", "waiting", "completed", "failed",
           "paused"] : List String)) :
    ∃ e, insertAgent s a = Except.error e := by
  cases hte : s.entityTablesExist with
  | false => exact ⟨"no such table: agents", by simp [insertAgent, hte]⟩
  | true =>
    by_cases hchk : agentChecksOk a = true
    · have hfk : s.sessions.any (fun r => r.id == a.session_id) = false := by
        rcases h with hfk | hp | htp | hst
        · rw [← Bool.not_eq_true]
          simp only [List.any_eq_true, beq_iff_eq]
          intro ⟨r, hr, he⟩
          exact hfk ⟨r, hr, he⟩
        · exfalso
          obtain ⟨p, hpp, hout⟩ := hp
          simp only [agentChecksOk, hpp, Bool.and_eq_true, decide_eq_true_iff] at hchk
          omega
        · exfalso
          simp only [agentChecksOk, Bool.and_eq_true] at hchk
          exact htp (by simpa using hchk.1.1)
        · exfalso
          simp only [agentChecksOk, Bool.and_eq_true] at hchk
          exact hst (by simpa using hchk.1.2)
      exact ⟨"FOREIGN KEY constraint failed", by simp [insertAgent, hte, hchk, hfk]⟩
    · have hchk2 : agentChecksOk a = false := by
        revert hchk; cases agentChecksOk a <;> simp
      exact ⟨"CHECK constraint failed: agents", by simp [insertAgent, hte, hchk2]⟩

/-- Witness for C7: inserting an agent with `progress = 150` into
the populated store is rejected. -/
theorem insertAgent_constraint_violations_rejected_witness :
    ∃ e, insertAgent exStore exAgentBadProgress = Except.error e :=
  insertAgent_constraint_violations_rejected exStore exAgentBadProgress
    (Or.inr (Or.inl ⟨150, rfl, by norm_num⟩))

/-- Counterexample to C8 as stated: a file-change row whose
`lines_added` is `-1` (with valid `change_type` and existing parent
rows) is accepted — the insert succeeds instead of failing with a
constraint violation, because the schema declares no range or sign
check on `lines_added`/`lines_removed`. -/
theorem insertFileChange_negative_lines_accepted_cx :
    exFileChangeNegative.lines_added = -1 ∧
    insertFileChange exStore exFileChangeNegative =
      Except.ok { exStore with
        fileChanges := exStore.fileChanges ++
          [{ exFileChangeNegative with id := nextFileChangeId exStore }] } :=
  ⟨rfl, rfl⟩

/-- C8 as amended: `lines_added` and `lines_removed` are not
range/sign-checked at the write boundary (unlike `progress` on
agents): any file-change insert with a valid `change_type` and
existing parent agent and session succeeds, whatever the sign of its
line counts. -/
theorem insertFileChange_no_sign_check (s : Store) (f : FileChangeRow)
    (htab : s.entityTablesExist = true)
    (hct : f.change_type ∈ (["created", "modified", "deleted", "renamed"] : List String))
    (hag : ∃ a ∈ s.agents, a.id = f.agent_id)
    (hse : ∃ r ∈ s.sessions, r.id = f.session_id) :
    insertFileChange s f =
      Except.ok { s with
        fileChanges := s.fileChanges ++ [{ f with id := nextFileChangeId s }] } := by
  have hchk : fileChangeChecksOk f = true := by
    simp only [fileChangeChecksOk]
    simpa using hct
  have hagb : s.agents.any (fun a => a.id == f.agent_id) = true := by
    obtain ⟨a, ha, he⟩ := hag
    simp only [List.any_eq_true, beq_iff_eq]
    exact ⟨a, ha, he⟩
  have hseb : s.sessions.any (fun r => r.id == f.session_id) = true := by
    obtain ⟨r, hr, he⟩ := hse
    simp only [List.any_eq_true, beq_iff_eq]
    exact ⟨r, hr, he⟩
  simp [insertFileChange, htab, hchk, hagb, hseb]

/-- Witness for the amended C8: the negative-lines row is inserted
successfully into the populated store. -/
theorem insertFileChange_no_sign_check_witness :
    insertFileChange exStore exFileChangeNegative =
      Except.ok { exStore with
        fileChanges := exStore.fileChanges ++
          [{ exFileChangeNegative with id := nextFileChangeId exStore }] } :=
  insertFileChange_no_sign_check exStore exFileChangeNegative rfl (by decide)
    (by decide) (by decide)

end AgentCrew
